import Mathlib

/-!
Verification development for `sync_mathlib_data.py`, the bidirectional
synchronisation script between the per-theorem record files of this
repository and the aggregate `1000.yaml` file used downstream.

The Python source is shallowly embedded: pure string manipulation is
modelled on `List Char`, the YAML layer (an external collaborator per the
spec) is represented by already-structured raw records, file I/O is an
association-list store, and Python exceptions (AttributeError,
AssertionError, IndexError, FileNotFoundError) are modelled with `Except`.
-/

/-- Python exceptions that the script can raise; raising one aborts the
current operation (and, uncaught, the whole run). -/
inductive PyErr
  | attributeError
  | assertionError
  | indexError
  | fileNotFoundError
deriving DecidableEq

/-- The ASCII whitespace characters stripped by Python's `str.rstrip()` /
`int()` conversion (space, tab, newline, carriage return, vertical tab,
form feed).  Python additionally strips some Unicode whitespace; the model
is restricted to ASCII inputs. -/
def isPyWs (c : Char) : Bool :=
  c = ' ' || c = '\t' || c = '\n' || c = '\r' || c = Char.ofNat 11 || c = Char.ofNat 12

/-- Python `str.rstrip()` on a character list. -/
def pyStripR (l : List Char) : List Char :=
  (l.reverse.dropWhile isPyWs).reverse

/-- Python `str.strip()` on a character list (both ends), as performed by
`int()` before conversion. -/
def pyStripL (l : List Char) : List Char :=
  ((l.dropWhile isPyWs).reverse.dropWhile isPyWs).reverse

/-- Python `str.rstrip()`. -/
def pyRstrip (s : String) : String :=
  String.mk (pyStripR s.toList)

/-- Python `str.startswith(p)`. -/
def pyStartsWith (s p : String) : Bool :=
  p.toList.isPrefixOf s.toList

/-- Python `str.removeprefix(p)` on character lists: drop `p` when it is a
prefix, otherwise return the string unchanged. -/
def removePre (l p : List Char) : List Char :=
  if p.isPrefixOf l then l.drop p.length else l

/-- Split at the first occurrence of `sep`: returns the part before the
first occurrence and the part after it, or `none` when `sep` does not
occur.  (`sep` is nonempty in every use below.) -/
def splitFirst (sep : List Char) : List Char → Option (List Char × List Char)
  | [] => none
  | c :: rest =>
    if sep.isPrefixOf (c :: rest) then some ([], (c :: rest).drop sep.length)
    else
      match splitFirst sep rest with
      | none => none
      | some (p, q) => some (c :: p, q)

/-- Python `str.partition(sep)`: `(before, sep, after)` at the first
occurrence, `(s, "", "")` when `sep` does not occur. -/
def pyPartition (l sep : List Char) : List Char × List Char × List Char :=
  match splitFirst sep l with
  | none => (l, [], [])
  | some (p, q) => (p, sep, q)

/-- Python `sub in s` substring test. -/
def pyContains (l sub : List Char) : Bool :=
  (splitFirst sub l).isSome

/-- Fuelled worker for `splitAll`; the fuel is always sufficient because
every step consumes at least one character of the input. -/
def splitAllGo (sep : List Char) : Nat → List Char → List (List Char)
  | 0, l => [l]
  | fuel + 1, l =>
    match splitFirst sep l with
    | none => [l]
    | some (p, q) => p :: splitAllGo sep fuel q

/-- Python `str.split(sep)` for a nonempty separator: split at every
occurrence. -/
def splitAll (sep l : List Char) : List (List Char) :=
  splitAllGo sep (l.length + 1) l

/-- Python `str.split(sep)` on `String`s. -/
def pySplitStr (s sep : String) : List String :=
  (splitAll sep.toList s.toList).map String.mk

/-- Python `" and ".join(parts)` (on already-listed character parts). -/
def joinAnd : List (List Char) → List Char
  | [] => []
  | [x] => x
  | x :: y :: rest => x ++ " and ".toList ++ joinAnd (y :: rest)

/-- The optional single leading sign consumed by Python's `int()`. -/
def stripSign : List Char → List Char
  | [] => []
  | c :: r => if c = '+' || c = '-' then r else c :: r

/-- Digit-run automaton of Python's `int()` numeral body: a nonempty
ASCII-digit sequence in which single underscores may appear between
digits.  The flag records that the next character must be a digit (at the
start and right after an underscore). -/
def pyDigitsAux : List Char → Bool → Bool
  | [], mustDigit => !mustDigit
  | c :: rest, mustDigit =>
    if c = '_' then (if mustDigit then false else pyDigitsAux rest true)
    else c.isDigit && pyDigitsAux rest false

/-- Success predicate of Python's `int(s)` conversion (restricted to ASCII
inputs): surrounding whitespace is stripped, one optional sign is allowed,
then a nonempty digit sequence with single underscores between digits. -/
def pyIntAccepts (l : List Char) : Bool :=
  pyDigitsAux (stripSign (pyStripL l)) true

/-- The six proof assistants tracked by the repository.  The source names
the fourth constructor `Lean`; it is called `LeanPA` here. -/
inductive ProofAssistant
  | Isabelle
  | HolLight
  | Rocq
  | LeanPA
  | Metamath
  | Mizar
deriving DecidableEq

/-- Formalization status: just the statement, or the full proof. -/
inductive FormalizationStatus
  | Statement
  | FullProof
deriving DecidableEq

/-- Source: `FormalizationStatus.tryFrom_str`. -/
def FormalizationStatus.tryFrom_str (input : String) : Option FormalizationStatus :=
  if input = "formalized" then some FormalizationStatus.FullProof
  else if input = "statement" then some FormalizationStatus.Statement
  else none

/-- Source: `FormalizationStatus.as_str`. -/
def FormalizationStatus.as_str : FormalizationStatus → String
  | FormalizationStatus.FullProof => "formalized"
  | FormalizationStatus.Statement => "statement"

/-- Library tier in which a formalization lives. -/
inductive Library
  | StandardLibrary
  | MainLibrary
  | External
deriving DecidableEq

/-- Source: `Library.tryFrom_str`. -/
def Library.tryFrom_str (input : String) : Option Library :=
  if input = "S" then some Library.StandardLibrary
  else if input = "L" then some Library.MainLibrary
  else if input = "X" then some Library.External
  else none

/-- Source: `Library.as_str`. -/
def Library.as_str : Library → String
  | Library.StandardLibrary => "S"
  | Library.MainLibrary => "L"
  | Library.External => "X"

/-- An untyped Python value in the `authors` position of a
`FormalisationEntry`: `None`, a raw string (only the empty string arises,
when the downstream `authors` value is `""` and the truthiness-guarded
split is skipped), or a list of author names. -/
inductive AuthorsVal
  | noneV
  | strV (s : String)
  | listV (l : List String)
deriving DecidableEq

/-- Raw (untyped) formalization sub-record as loaded from YAML.  Dates are
kept as opaque strings. -/
structure FormRaw where
  status : String
  library : String
  url : Option String := none
  authors : Option (List String) := none
  identifiers : Option (List String) := none
  date : Option String := none
  comment : Option String := none
deriving DecidableEq

/-- Raw (untyped) theorem record as loaded from YAML; mirrors
`TheoremEntryRaw` in the source.  The source names the Lean entry field
`lean`; it is called `leanList` here. -/
structure TheoremEntryRaw where
  wikidata : String
  msc_classification : String
  wikipedia_links : List String
  id_suffix : Option String := none
  isabelle : Option (List FormRaw) := none
  hol_light : Option (List FormRaw) := none
  rocq : Option (List FormRaw) := none
  leanList : Option (List FormRaw) := none
  metamath : Option (List FormRaw) := none
  mizar : Option (List FormRaw) := none
deriving DecidableEq

/-- Typed formalization entry (`FormalisationEntry` in the source);
equality is structural over all seven fields, as for the NamedTuple. -/
structure FormalisationEntry where
  status : FormalizationStatus
  library : Library
  url : Option String
  authors : AuthorsVal
  identifiers : Option (List String)
  date : Option String
  comment : Option String
deriving DecidableEq

/-- The per-assistant formalization mapping, always populated for all six
assistants (an absent raw key yields the empty list). -/
def mkForms (isa hol roc lea met miz : List FormalisationEntry) :
    ProofAssistant → List FormalisationEntry
  | ProofAssistant.Isabelle => isa
  | ProofAssistant.HolLight => hol
  | ProofAssistant.Rocq => roc
  | ProofAssistant.LeanPA => lea
  | ProofAssistant.Metamath => met
  | ProofAssistant.Mizar => miz

/-- Typed theorem record (`TheoremEntry` in the source). -/
structure TheoremEntry where
  wikidata : String
  id_suffix : Option String
  msc_classification : String
  wikipedia_links : List String
  formalisations : ProofAssistant → List FormalisationEntry

/-- Source: `is_valid_wikidata`.  Checks the `Q` prefix and then applies
Python's `int()` to the remainder (the error prints are diagnostics and
are not modelled). -/
def is_valid_wikidata (s : String) : Bool :=
  if !("Q".toList.isPrefixOf s.toList) then false
  else pyIntAccepts (removePre s.toList "Q".toList)

/-- Source: `parse_formalization_entry`.  `None` when the status or
library code is unrecognized. -/
def parseFormEntry (r : FormRaw) : Option FormalisationEntry :=
  match FormalizationStatus.tryFrom_str r.status, Library.tryFrom_str r.library with
  | some st, some lib =>
    some { status := st, library := lib, url := r.url,
           authors := (match r.authors with
                       | none => AuthorsVal.noneV
                       | some l => AuthorsVal.listV l),
           identifiers := r.identifiers, date := r.date, comment := r.comment }
  | _, _ => none

/-- One assistant's raw list, parsed: a falsy raw value (absent key or
empty list) yields the empty list, and a single unparsable sub-record
rejects the whole theorem record (`none`). -/
def parseAssistant : Option (List FormRaw) → Option (List FormalisationEntry)
  | none => some []
  | some l =>
    if l = [] then some []
    else
      let es := l.map parseFormEntry
      if none ∈ es then none else some (es.filterMap id)

/-- Body of `_parse_theorem_entry` after the framing asserts: wikidata
validation, then per-assistant parsing; any rejection rejects the whole
record. -/
def parseBody (body : TheoremEntryRaw) : Option TheoremEntry :=
  if is_valid_wikidata body.wikidata then
    match parseAssistant body.isabelle, parseAssistant body.hol_light,
          parseAssistant body.rocq, parseAssistant body.metamath,
          parseAssistant body.mizar, parseAssistant body.leanList with
    | some isa, some hol, some roc, some met, some miz, some lea =>
      some { wikidata := body.wikidata, id_suffix := body.id_suffix,
             msc_classification := body.msc_classification,
             wikipedia_links := body.wikipedia_links,
             formalisations := mkForms isa hol roc lea met miz }
    | _, _, _, _, _, _ => none
  else none

/-- Python `contents[-1]` for a nonempty list of lines (the empty-list
default is unreachable in every use). -/
def pyLastLine : List String → String
  | [] => ""
  | [x] => x
  | _ :: y :: rest => pyLastLine (y :: rest)

/-- Source: `_parse_theorem_entry`.  `contents` are the raw file lines;
`body` stands for the result of `yaml.safe_load` on the framed body (the
YAML reader is an external collaborator).  The three `assert` statements
on the framing raise (Except.error) rather than reject; indexing an
absent line raises IndexError. -/
def parseTheoremEntry (contents : List String) (body : TheoremEntryRaw) :
    Except PyErr (Option TheoremEntry) :=
  match contents with
  | [] => Except.error PyErr.indexError
  | c0 :: rest =>
    if pyRstrip c0 = "---" then
      if pyRstrip (pyLastLine (c0 :: rest)) = "---" then
        match rest with
        | [] => Except.error PyErr.indexError
        | c1 :: _ =>
          if pyStartsWith c1 "# " || pyStartsWith c1 "## " then
            Except.ok (parseBody body)
          else Except.error PyErr.assertionError
      else Except.error PyErr.assertionError
    else Except.error PyErr.assertionError

/-- Core of `_parse_title_inner` on one link's characters: strip the
leading `[[`, partition on `]]` (re-appending a pluralizing `s` carried
just outside the brackets), and for piped links choose the displayed text
when the target has a `#` anchor or lacks the substring "theorem",
otherwise the target. -/
def titleCore (l : List Char) : List Char :=
  let t0 := removePre l "[[".toList
  let p := pyPartition t0 "]]".toList
  let suf := p.2.2
  let title := if suf = "s".toList then p.1 ++ "s".toList else p.1
  if pyContains title "|".toList then
    let q := pyPartition title "|".toList
    let wlemma := q.1
    let displayed := q.2.2
    if pyContains wlemma "#".toList || !(pyContains wlemma "theorem".toList) then displayed
    else wlemma
  else title

/-- Title of a single Wikipedia link string. -/
def titleOfLink (link : String) : String :=
  String.mk (titleCore link.toList)

/-- Source: `_parse_title_inner`.  Accessing `wiki_links[0]` of an empty
list raises IndexError. -/
def parseTitleInner (links : List String) : Except PyErr String :=
  match links with
  | [] => Except.error PyErr.indexError
  | l0 :: _ => Except.ok (titleOfLink l0)

/-- Python truthiness of an optional string (None and the empty string
are falsy). -/
def optKeep : Option String → Option String
  | none => none
  | some s => if s = "" then none else some s

/-- The `" and ".join(first.authors)` step, guarded by Python truthiness.
Joining a raw string iterates its characters, as in Python (that branch
is unreachable from file-parsed entries). -/
def authorsJoined : AuthorsVal → Option String
  | AuthorsVal.noneV => none
  | AuthorsVal.strV s =>
    if s = "" then none
    else some (String.mk (joinAnd (s.toList.map (fun c => [c]))))
  | AuthorsVal.listV l =>
    if l = [] then none else some (String.mk (joinAnd (l.map String.toList)))

/-- The downstream document for one theorem key, as built by
`_write_entry_for_downstream` (field presence models dict key presence). -/
structure ProjInner where
  title : String
  statement : Option (List String) := none
  decl : Option String := none
  decls : Option (List String) := none
  authors : Option String := none
  date : Option String := none
  comment : Option String := none
deriving DecidableEq

/-- The status-dependent identifier fields for a selected standard- or
main-library entry: `statement` for Statement, `decl` for a FullProof
with one identifier, `decls` for several; nothing (just a warning) when
the entry carries no identifiers. -/
def libFields (first : FormalisationEntry) (inner : ProjInner) : ProjInner :=
  match first.identifiers with
  | some ids =>
    if ids = [] then inner
    else
      match first.status with
      | FormalizationStatus.Statement => { inner with statement := some ids }
      | FormalizationStatus.FullProof =>
        match ids with
        | [i] => { inner with decl := some i }
        | _ => { inner with decls := some ids }
  | none => inner

/-- The authors/date/comment metadata appended for the selected entry
regardless of tier, each guarded by Python truthiness. -/
def addMeta (first : FormalisationEntry) (inner : ProjInner) : ProjInner :=
  let inner1 :=
    match authorsJoined first.authors with
    | some a => { inner with authors := some a }
    | none => inner
  let inner2 :=
    match optKeep first.date with
    | some d => { inner1 with date := some d }
    | none => inner1
  match optKeep first.comment with
  | some c => { inner2 with comment := some c }
  | none => inner2

/-- Tier selection and field emission of `_write_entry_for_downstream`
for a nonempty entry list.  The source computes
`stdlib_formalisations.get(0)` when the standard-library subset is
nonempty; Python lists have no `get` method, so that branch raises
AttributeError.  The external fallback carries the source's
`assert first.library == Library.External`. -/
def selectAndFields (form : List FormalisationEntry) (inner : ProjInner) :
    Except PyErr ProjInner :=
  match form with
  | [] => Except.ok inner
  | f0 :: _ =>
    let stdlib := form.filter fun f => decide (f.library = Library.StandardLibrary)
    let mathlibL := form.filter fun f => decide (f.library = Library.MainLibrary)
    match stdlib with
    | _ :: _ => Except.error PyErr.attributeError
    | [] =>
      match mathlibL with
      | m0 :: _ => Except.ok (addMeta m0 (libFields m0 inner))
      | [] =>
        if f0.library = Library.External then Except.ok (addMeta f0 inner)
        else Except.error PyErr.assertionError

/-- Python `x or ""` on the optional id suffix. -/
def pyOrEmpty : Option String → String
  | none => ""
  | some s => s

/-- Source: `_write_entry_for_downstream`.  Returns the downstream key
`wikidata + id_suffix` and the document for it (YAML serialization is
external). -/
def writeEntryForDownstream (t : TheoremEntry) : Except PyErr (String × ProjInner) :=
  match parseTitleInner t.wikipedia_links with
  | Except.error e => Except.error e
  | Except.ok title =>
    match selectAndFields (t.formalisations ProofAssistant.LeanPA) { title := title } with
    | Except.error e => Except.error e
    | Except.ok inner => Except.ok (t.wikidata ++ pyOrEmpty t.id_suffix, inner)

/-- One downstream-file entry as read back by the upstream direction
(`update_data_from_downstream_yaml`).  Field presence models dict key
presence; `decls` holds a list, the other identifier fields single
strings; dates are opaque strings. -/
structure DownEntry where
  statement : Option String := none
  decl : Option String := none
  decls : Option (List String) := none
  url : Option String := none
  authors : Option String := none
  date : Option String := none
  comment : Option String := none
deriving DecidableEq

/-- The identifier list reconstructed for the `decl`/`decls` branch:
`entry.get("decls") or [entry.get("decl")]`, then `None` when that
evaluates to `[None]`. -/
def declIdentifiers (e : DownEntry) : Option (List String) :=
  match e.decls with
  | some l => if l = [] then (match e.decl with
                              | some d => some [d]
                              | none => none)
              else some l
  | none =>
    match e.decl with
    | some d => some [d]
    | none => none

/-- The `authors` value attached to the candidate entry: absent stays
`None`; a truthy string is split on `" and "`; the empty string is kept
as the raw string (the truthiness guard skips the split). -/
def authorsOfDown (e : DownEntry) : AuthorsVal :=
  match e.authors with
  | none => AuthorsVal.noneV
  | some s => if s = "" then AuthorsVal.strV "" else AuthorsVal.listV (pySplitStr s " and ")

/-- Candidate typed entry derived from one downstream entry
(`new_entry_typed` in the source).  Trigger-key priority is `statement`,
then `decl`/`decls`, then `url`; no trigger key yields no candidate.  The
candidate's `url` field is the raw downstream `url` value (not the
canonical reconstruction). -/
def deriveCandidate (e : DownEntry) : Option FormalisationEntry :=
  let authors := authorsOfDown e
  match e.statement with
  | some s =>
    some { status := FormalizationStatus.Statement, library := Library.MainLibrary,
           url := e.url, authors := authors, identifiers := some [s],
           date := e.date, comment := e.comment }
  | none =>
    if e.decl.isSome || e.decls.isSome then
      some { status := FormalizationStatus.FullProof, library := Library.MainLibrary,
             url := e.url, authors := authors, identifiers := declIdentifiers e,
             date := e.date, comment := e.comment }
    else
      match e.url with
      | some _ =>
        some { status := FormalizationStatus.FullProof, library := Library.External,
               url := e.url, authors := authors, identifiers := none,
               date := e.date, comment := e.comment }
      | none => none

/-- One reported field difference: the field's name together with the
downstream and upstream values (the information content of the
`compare` message strings). -/
inductive FieldDiff
  | statusDiff (d u : FormalizationStatus)
  | libraryDiff (d u : Library)
  | urlDiff (d u : Option String)
  | authorsDiff (d u : AuthorsVal)
  | identifiersDiff (d u : Option (List String))
  | dateDiff (d u : Option String)
  | commentDiff (d u : Option String)
deriving DecidableEq

/-- The guarded URL comparison of the source.  Python evaluates
`if not (new_entry_typed.url, upstream_entry[0].url == (None, expected)):`
whose operand is a two-element tuple — always truthy — so the negation is
constantly false and the URL difference message is never appended. -/
def urlMessages (e : DownEntry) (c u : FormalisationEntry) : List FieldDiff :=
  if e.decl.isSome || e.decls.isSome then
    if false then (if c.url ≠ u.url then [FieldDiff.urlDiff c.url u.url] else [])
    else []
  else []

/-- The non-empty `compare` messages collected when the candidate and the
single upstream entry are structurally different (`real_messages` in the
source), in the source's field order. -/
def realMessages (e : DownEntry) (c u : FormalisationEntry) : List FieldDiff :=
  (if c.status ≠ u.status then [FieldDiff.statusDiff c.status u.status] else [])
  ++ (if c.library ≠ u.library then [FieldDiff.libraryDiff c.library u.library] else [])
  ++ urlMessages e c u
  ++ (if c.authors ≠ u.authors then [FieldDiff.authorsDiff c.authors u.authors] else [])
  ++ (if c.identifiers ≠ u.identifiers then
        [FieldDiff.identifiersDiff c.identifiers u.identifiers] else [])
  ++ (if c.date ≠ u.date then [FieldDiff.dateDiff c.date u.date] else [])
  ++ (if c.comment ≠ u.comment then [FieldDiff.commentDiff c.comment u.comment] else [])

/-- Classification of one reconciliation step, mirroring the branch
structure of `update_data_from_downstream_yaml`.  `newDownstream` and
`different` carry the candidate entry that will overwrite the record;
`differentUnreported` is the branch where the two entries are unequal but
every collected message is empty (only possible via the never-compared
URL field), so nothing is reported and nothing is overwritten. -/
inductive Classification
  | newDownstream (c : FormalisationEntry)
  | upstreamOnly
  | multipleUpstream (n : Nat)
  | different (c : FormalisationEntry) (fields : List FieldDiff)
  | differentUnreported
  | same
  | nothingToDo
deriving DecidableEq

/-- Whether a classification leads to an overwrite of the per-theorem
record (`overwrite = True` in the source). -/
def classificationOverwrite : Classification → Bool
  | Classification.newDownstream _ => true
  | Classification.different _ _ => true
  | _ => false

/-- The per-key classification: candidate presence versus the upstream
record's Lean entry list. -/
def classify (e : DownEntry) (cand : Option FormalisationEntry)
    (up : List FormalisationEntry) : Classification :=
  match cand, up with
  | some c, [] => Classification.newDownstream c
  | none, _ :: _ => Classification.upstreamOnly
  | some c, [u] =>
    if c = u then Classification.same
    else
      let ms := realMessages e c u
      if ms = [] then Classification.differentUnreported
      else Classification.different c ms
  | some _, _ :: _ :: us => Classification.multipleUpstream (us.length + 2)
  | none, [] => Classification.nothingToDo

/-- The canonical downstream URL reconstructed for a theorem key. -/
def canonicalUrl (k : String) : String :=
  "https://leanprover-community.github.io/1000.html#" ++ k

/-- The raw `lean` sub-record written on overwrite (`inner` in the
source): status and library codes, the canonical URL, and the candidate's
truthy optional fields. -/
def writeInner (c : FormalisationEntry) (k : String) : FormRaw :=
  { status := FormalizationStatus.as_str c.status,
    library := Library.as_str c.library,
    url := some (canonicalUrl k),
    authors := (match c.authors with
                | AuthorsVal.noneV => none
                | AuthorsVal.strV s => if s = "" then none else some [s]
                | AuthorsVal.listV l => if l = [] then none else some l),
    identifiers := (match c.identifiers with
                    | some l => if l = [] then none else some l
                    | none => none),
    date := optKeep c.date,
    comment := optKeep c.comment }

/-- A per-theorem record file: its raw lines (for the framing asserts)
and the structured body the YAML collaborator reads from / writes to
them. -/
structure UpFile where
  lines : List String
  raw : TheoremEntryRaw
deriving DecidableEq

/-- The store of per-theorem record files, keyed by `wikidata+id_suffix`. -/
def SyncStore : Type := List (String × UpFile)

/-- Look a key up in the store (the file system read). -/
def lookupStore : SyncStore → String → Option UpFile
  | [], _ => none
  | (k', f) :: rest, k => if k' = k then some f else lookupStore rest k

/-- Write a file back at an existing key (the file system write). -/
def storeSet (store : SyncStore) (k : String) (f : UpFile) : SyncStore :=
  store.map fun p => if p.1 = k then (k, f) else p

/-- The record file written on overwrite: the framing/header lines of
`f.write("---\n# {title}\n\n{yamls}\n---")` and the old structured body
with only the `lean` field replaced by the new singleton list. -/
def overwrittenFile (f : UpFile) (c : FormalisationEntry) (k : String)
    (title : String) : UpFile :=
  { lines := ["---", "# " ++ title, "", "---"],
    raw := { f.raw with leanList := some [writeInner c k] } }

/-- Result of processing one downstream key. -/
inductive KeyResult
  | skippedQ513028
  | invalidUpstream
  | classified (c : Classification)
deriving DecidableEq

/-- The overwrite tail of one key's processing: re-derive the title from
the record's Wikipedia links (IndexError on an empty list propagates),
then persist the rewritten file at the same key. -/
def doOverwrite (store : SyncStore) (k : String) (f : UpFile)
    (c : FormalisationEntry) (cls : Classification) :
    Except PyErr (KeyResult × SyncStore) :=
  match parseTitleInner f.raw.wikipedia_links with
  | Except.error err => Except.error err
  | Except.ok title =>
    Except.ok (KeyResult.classified cls, storeSet store k (overwrittenFile f c k title))

/-- Processing of one key of the downstream mapping, mirroring one
iteration of the loop in `update_data_from_downstream_yaml`: derive the
candidate, skip the hardcoded key `Q513028` before touching the file,
open the record file (FileNotFoundError when absent), parse it (framing
violations propagate; validation failure reports and continues), classify
and, on the overwriting classifications, rewrite the file. -/
def processKey (k : String) (e : DownEntry) (store : SyncStore) :
    Except PyErr (KeyResult × SyncStore) :=
  let cand := deriveCandidate e
  if k = "Q513028" then Except.ok (KeyResult.skippedQ513028, store)
  else
    match lookupStore store k with
    | none => Except.error PyErr.fileNotFoundError
    | some f =>
      match parseTheoremEntry f.lines f.raw with
      | Except.error err => Except.error err
      | Except.ok none => Except.ok (KeyResult.invalidUpstream, store)
      | Except.ok (some rec) =>
        match classify e cand (rec.formalisations ProofAssistant.LeanPA) with
        | Classification.newDownstream c =>
          doOverwrite store k f c (Classification.newDownstream c)
        | Classification.different c ms =>
          doOverwrite store k f c (Classification.different c ms)
        | cls => Except.ok (KeyResult.classified cls, store)

/-- Source: `update_data_from_downstream_yaml` — one pass over the
downstream mapping, processing each key in order; an uncaught exception
aborts the whole run. -/
def updateRun : List (String × DownEntry) → SyncStore →
    Except PyErr (List (String × KeyResult) × SyncStore)
  | [], store => Except.ok ([], store)
  | (k, e) :: rest, store =>
    match processKey k e store with
    | Except.error err => Except.error err
    | Except.ok (res, store') =>
      match updateRun rest store' with
      | Except.error err => Except.error err
      | Except.ok (results, store'') => Except.ok ((k, res) :: results, store'')

/-- Specification-side list of differing fields between a candidate and
an upstream entry: the differing ones among status, library, authors,
identifiers, date and comment, with both values.  (Stated from the spec's
words for comparison with `realMessages`; the URL field is deliberately
absent — see the theorem for claim C3.) -/
def diffFields (c u : FormalisationEntry) : List FieldDiff :=
  (if c.status ≠ u.status then [FieldDiff.statusDiff c.status u.status] else [])
  ++ (if c.library ≠ u.library then [FieldDiff.libraryDiff c.library u.library] else [])
  ++ (if c.authors ≠ u.authors then [FieldDiff.authorsDiff c.authors u.authors] else [])
  ++ (if c.identifiers ≠ u.identifiers then
        [FieldDiff.identifiersDiff c.identifiers u.identifiers] else [])
  ++ (if c.date ≠ u.date then [FieldDiff.dateDiff c.date u.date] else [])
  ++ (if c.comment ≠ u.comment then [FieldDiff.commentDiff c.comment u.comment] else [])

/-- Specification-side relation: the downstream entry `e` carries exactly
the data of the projected document `p` (the YAML round trip between the
two directions is an external collaborator).  Statement-bearing projected
documents carry a list under `statement` and are outside the modelled
reconciliation input, so only the `statement`-free case is related. -/
def SerializesTo (p : ProjInner) (e : DownEntry) : Prop :=
  p.statement = none ∧ e.statement = none ∧ e.decl = p.decl ∧ e.decls = p.decls ∧
  e.url = none ∧ e.authors = p.authors ∧ e.date = p.date ∧ e.comment = p.comment

/-- Specification-side statement of claim C1: projecting `t` downstream
succeeds, and reconciling the serialized result back against `t`'s own
Lean entry list classifies as a no-op (`same`) with no overwrite. -/
def c1RoundTripNoop (t : TheoremEntry) : Prop :=
  ∃ key p e, writeEntryForDownstream t = Except.ok (key, p) ∧ SerializesTo p e ∧
    classify e (deriveCandidate e) (t.formalisations ProofAssistant.LeanPA) =
      Classification.same ∧
    classificationOverwrite
      (classify e (deriveCandidate e) (t.formalisations ProofAssistant.LeanPA)) = false

/-- A single standard-library FullProof Lean entry with one identifier
(claim C1's scenario). -/
def c1s : FormalisationEntry :=
  { status := FormalizationStatus.FullProof, library := Library.StandardLibrary,
    url := some "https://std.example/one", authors := AuthorsVal.noneV,
    identifiers := some ["thm_one"], date := none, comment := none }

/-- A record whose only Lean formalisation is `c1s`. -/
def c1rec : TheoremEntry :=
  { wikidata := "Q21", id_suffix := none, msc_classification := "11",
    wikipedia_links := ["[[Single theorem]]"],
    formalisations := mkForms [] [] [] [c1s] [] [] }

/-- External FullProof entry for claim C2's scenario. -/
def c2x : FormalisationEntry :=
  { status := FormalizationStatus.FullProof, library := Library.External,
    url := some "https://ext.example", authors := AuthorsVal.noneV,
    identifiers := none, date := none, comment := none }

/-- Main-library Statement entry for claim C2's scenario. -/
def c2m : FormalisationEntry :=
  { status := FormalizationStatus.Statement, library := Library.MainLibrary,
    url := some "https://main.example", authors := AuthorsVal.noneV,
    identifiers := some ["stmt_id"], date := none, comment := none }

/-- Standard-library FullProof entry for claim C2's scenario. -/
def c2s : FormalisationEntry :=
  { status := FormalizationStatus.FullProof, library := Library.StandardLibrary,
    url := some "https://std.example", authors := AuthorsVal.noneV,
    identifiers := some ["std_id"], date := none, comment := none }

/-- A record holding the three entries of claim C2's scenario. -/
def c2rec : TheoremEntry :=
  { wikidata := "Q11", id_suffix := none, msc_classification := "03",
    wikipedia_links := ["[[Order theorem]]"],
    formalisations := mkForms [] [] [] [c2x, c2m, c2s] [] [] }

/-- A downstream entry whose only content is a `url` key (claim C3's
URL-only-difference scenario). -/
def c3e : DownEntry := { url := some "https://a.example" }

/-- The candidate derived from `c3e`. -/
def c3c : FormalisationEntry :=
  { status := FormalizationStatus.FullProof, library := Library.External,
    url := some "https://a.example", authors := AuthorsVal.noneV,
    identifiers := none, date := none, comment := none }

/-- An upstream entry agreeing with `c3c` on every field except the URL. -/
def c3u : FormalisationEntry :=
  { status := FormalizationStatus.FullProof, library := Library.External,
    url := some "https://b.example", authors := AuthorsVal.noneV,
    identifiers := none, date := none, comment := none }

/-- A record file whose body fails wikidata validation (claim C5's
witness). -/
def c5bad : UpFile :=
  { lines := ["---", "# Bad theorem", "---"],
    raw := { wikidata := "X1", msc_classification := "00",
             wikipedia_links := ["[[Bad theorem]]"] } }

/-- Store holding only the invalid record for key Q1. -/
def c5store : SyncStore := [("Q1", c5bad)]

/-- A perfectly valid record file for key Q2 (claim C5's counterexample:
it is never reached because the run aborts on the missing Q1 file). -/
def c5good : UpFile :=
  { lines := ["---", "# Good theorem", "---"],
    raw := { wikidata := "Q2", msc_classification := "00",
             wikipedia_links := ["[[Good theorem]]"] } }

/-- First upstream Lean entry of claim C6's witness record. -/
def c6u1 : FormalisationEntry :=
  { status := FormalizationStatus.FullProof, library := Library.MainLibrary,
    url := some "https://m.example", authors := AuthorsVal.noneV,
    identifiers := some ["idA"], date := none, comment := none }

/-- Second upstream Lean entry of claim C6's witness record. -/
def c6u2 : FormalisationEntry :=
  { status := FormalizationStatus.Statement, library := Library.External,
    url := some "https://x.example", authors := AuthorsVal.noneV,
    identifiers := none, date := none, comment := none }

/-- Raw form of `c6u1`. -/
def c6raw1 : FormRaw :=
  { status := "formalized", library := "L", url := some "https://m.example",
    identifiers := some ["idA"] }

/-- Raw form of `c6u2`. -/
def c6raw2 : FormRaw :=
  { status := "statement", library := "X", url := some "https://x.example" }

/-- Record file with two upstream Lean entries (claim C6's witness). -/
def c6file : UpFile :=
  { lines := ["---", "# Great theorem", "---"],
    raw := { wikidata := "Q42", msc_classification := "11",
             wikipedia_links := ["[[Great theorem]]"],
             leanList := some [c6raw1, c6raw2] } }

/-- The parsed form of `c6file`. -/
def c6rec : TheoremEntry :=
  { wikidata := "Q42", id_suffix := none, msc_classification := "11",
    wikipedia_links := ["[[Great theorem]]"],
    formalisations := mkForms [] [] [] [c6u1, c6u2] [] [] }

/-- A downstream entry with none of the trigger keys (only metadata). -/
def c6e : DownEntry := { authors := some "Ann" }

/-- Store holding the two-entry record for key Q42. -/
def c6store : SyncStore := [("Q42", c6file)]

/-- Record file with no Lean entries (claim C8's witness). -/
def c8file : UpFile :=
  { lines := ["---", "# Seven theorem", "---"],
    raw := { wikidata := "Q7", msc_classification := "05",
             wikipedia_links := ["[[Seven theorem]]"] } }

/-- Downstream entry with a `decl` key (claim C8's witness). -/
def c8e : DownEntry := { decl := some "Nat.add_comm" }

/-- The candidate derived from `c8e`. -/
def c8c : FormalisationEntry :=
  { status := FormalizationStatus.FullProof, library := Library.MainLibrary,
    url := none, authors := AuthorsVal.noneV,
    identifiers := some ["Nat.add_comm"], date := none, comment := none }

/-- Store holding the Lean-free record for key Q7. -/
def c8store : SyncStore := [("Q7", c8file)]

/-- The store after claim C8's witness overwrite. -/
def c8store2 : SyncStore :=
  storeSet c8store "Q7" (overwrittenFile c8file c8c "Q7" "Seven theorem")

/-- A well-formed raw body (claim C9's witness). -/
def c9body : TheoremEntryRaw :=
  { wikidata := "Q1", msc_classification := "00",
    wikipedia_links := ["[[W theorem]]"] }

/-- A raw body with an invalid wikidata identifier (claim C9's witness). -/
def c9badBody : TheoremEntryRaw :=
  { wikidata := "X9", msc_classification := "00",
    wikipedia_links := ["[[W theorem]]"] }

/-- A record file whose first line violates the framing contract. -/
def c9file : UpFile :=
  { lines := ["--x", "# W theorem", "---"], raw := c9body }

/-- An apostrophe, built from its code point to keep the source ASCII-safe. -/
def apostr : String := String.mk [Char.ofNat 39]

/-- Wikipedia link for Fermat's little theorem with a pluralizing `s`
outside the brackets. -/
def fermatLink : String := "[[Fermat" ++ apostr ++ "s little theorem]]s"

/-- The expected derived title for `fermatLink`. -/
def fermatTitle : String := "Fermat" ++ apostr ++ "s little theorems"

theorem digit_not_pyWs {c : Char} (h : c.isDigit = true) : isPyWs c = false := by
  by_contra hws
  have hws2 : isPyWs c = true := by
    cases hval : isPyWs c
    · exact absurd hval hws
    · rfl
  simp only [isPyWs, Bool.or_eq_true, decide_eq_true_eq] at hws2
  rcases hws2 with ((((h1 | h2) | h3) | h4) | h5) | h6 <;> subst_vars <;>
    exact absurd h (by decide)

theorem digit_ne_of_not {c d : Char} (h : c.isDigit = true) (hd : d.isDigit = false) :
    c ≠ d := by
  intro heq
  subst heq
  rw [h] at hd
  cases hd

theorem dropWhile_pyWs_of_digits {l : List Char} (h : l.all Char.isDigit = true) :
    l.dropWhile isPyWs = l := by
  cases l with
  | nil => rfl
  | cons c r =>
    simp only [List.all_cons, Bool.and_eq_true] at h
    rw [List.dropWhile_cons_of_neg (by simp [digit_not_pyWs h.1])]

theorem pyStripL_of_digits {l : List Char} (h : l.all Char.isDigit = true) :
    pyStripL l = l := by
  have hrev : l.reverse.all Char.isDigit = true := by
    rw [List.all_eq_true] at h ⊢
    intro x hx
    exact h x (List.mem_reverse.mp hx)
  unfold pyStripL
  rw [dropWhile_pyWs_of_digits h, dropWhile_pyWs_of_digits hrev, List.reverse_reverse]

theorem pyDigitsAux_of_digits {l : List Char} (h : l.all Char.isDigit = true) :
    pyDigitsAux l false = true := by
  induction l with
  | nil => rfl
  | cons c r ih =>
    simp only [List.all_cons, Bool.and_eq_true] at h
    have hne : c ≠ '_' := digit_ne_of_not h.1 (by decide)
    simp [pyDigitsAux, hne, h.1, ih h.2]

/-- Claim C4 (amended): `is_valid_wikidata` accepts `Q` followed by one or
more decimal digits and rejects the empty string and any string not
starting with `Q` (in particular a bare `Q`); but its numeric check is
Python's `int()` conversion, so `Q` followed by a signed,
whitespace-padded or underscore-grouped numeral — not a plain digit
sequence — is also accepted, as the last three conjuncts exhibit. -/
theorem c4_amended :
    (∀ ds : List Char, ds ≠ [] → ds.all Char.isDigit = true →
      is_valid_wikidata (String.mk ('Q' :: ds)) = true)
    ∧ (∀ s : String, s.toList.head? ≠ some 'Q' → is_valid_wikidata s = false)
    ∧ is_valid_wikidata "Q" = false
    ∧ is_valid_wikidata "Q-5" = true
    ∧ is_valid_wikidata "Q 7 " = true
    ∧ is_valid_wikidata "Q1_2" = true := by
  refine ⟨?_, ?_, by decide, by decide, by decide, by decide⟩
  · intro ds hne h
    unfold is_valid_wikidata
    have htl : (String.mk ('Q' :: ds)).toList = 'Q' :: ds := rfl
    rw [htl]
    have hpre : "Q".toList.isPrefixOf ('Q' :: ds) = true := by
      simp [List.isPrefixOf]
    rw [hpre]
    have hrm : removePre ('Q' :: ds) "Q".toList = ds := by
      unfold removePre
      rw [hpre]
      rfl
    simp only [Bool.not_true, Bool.false_eq_true, if_false, hrm]
    unfold pyIntAccepts
    rw [pyStripL_of_digits h]
    cases ds with
    | nil => exact absurd rfl hne
    | cons d r =>
      simp only [List.all_cons, Bool.and_eq_true] at h
      have hplus : d ≠ '+' := digit_ne_of_not h.1 (by decide)
      have hminus : d ≠ '-' := digit_ne_of_not h.1 (by decide)
      have hund : d ≠ '_' := digit_ne_of_not h.1 (by decide)
      rw [show stripSign (d :: r) = d :: r by simp [stripSign, hplus, hminus]]
      simp [pyDigitsAux, hund, h.1, pyDigitsAux_of_digits h.2]
  · intro s h
    unfold is_valid_wikidata
    cases hl : s.toList with
    | nil => simp [List.isPrefixOf]
    | cons c r =>
      have hc : c ≠ 'Q' := by
        intro heq
        rw [hl, heq] at h
        exact h rfl
      have hnp : "Q".toList.isPrefixOf (c :: r) = false := by
        simp [List.isPrefixOf]
        intro heq
        exact absurd heq.symm hc
      rw [hnp]
      rfl

/-- Witness for claim C4's amended theorem: `Q1` is accepted and the
empty string rejected, at concrete inputs. -/
theorem c4_witness :
    is_valid_wikidata (String.mk ['Q', '1']) = true ∧ is_valid_wikidata "" = false :=
  ⟨c4_amended.1 ['1'] (by decide) (by decide), c4_amended.2.1 "" (by decide)⟩

/-- Counterexample to claim C4 as stated: `Q-5` is accepted by
`is_valid_wikidata` although its suffix `-5` is not a plain digit
sequence (Python's `int()` accepts the sign), so validation does not
reject every string whose suffix after `Q` is not a digit sequence. -/
theorem c4_counterexample :
    is_valid_wikidata "Q-5" = true ∧ "-5".toList.all Char.isDigit = false := by
  decide

/-- Claim C7 (amended): the four title derivations, with the fourth
corrected — `[[List of prime numbers|prime numbers theorem]]` derives the
displayed text `prime numbers theorem`, because the link target
`List of prime numbers` does not contain the substring "theorem" (the
target is preferred only when it has no `#` and does contain "theorem"). -/
theorem c7_amended :
    parseTitleInner ["[[Pythagorean theorem]]"] = Except.ok "Pythagorean theorem"
    ∧ parseTitleInner [fermatLink] = Except.ok fermatTitle
    ∧ parseTitleInner ["[[Group (mathematics)#Definition|groups]]"] = Except.ok "groups"
    ∧ parseTitleInner ["[[List of prime numbers|prime numbers theorem]]"] =
        Except.ok "prime numbers theorem" :=
  ⟨rfl, rfl, rfl, rfl⟩

/-- Counterexample to claim C7 as stated: the fourth input derives the
displayed text, not the claimed link target `List of prime numbers`. -/
theorem c7_counterexample :
    parseTitleInner ["[[List of prime numbers|prime numbers theorem]]"] =
      Except.ok "prime numbers theorem"
    ∧ "prime numbers theorem" ≠ "List of prime numbers" :=
  ⟨rfl, by decide⟩

theorem realMessages_eq_diffFields (e : DownEntry) (c u : FormalisationEntry) :
    realMessages e c u = diffFields c u := by
  unfold realMessages diffFields urlMessages
  cases h : (e.decl.isSome || e.decls.isSome) <;> simp [h]

/-- Claim C3 (amended): with a candidate present and exactly one upstream
entry, the step classifies as diverged (`different`, which overwrites)
exactly when one of the six fields status, library, authors, identifiers,
date, comment differs, and then it reports exactly the differing fields
among those six with both values; the URL field is never compared (the
source's guard negates an always-truthy tuple), so a pair differing only
in the URL falls into the unreported branch with no overwrite, and a pair
agreeing on all fields is a no-op. -/
theorem c3_amended (e : DownEntry) (c u : FormalisationEntry) :
    classify e (some c) [u] =
      (if c = u then Classification.same
       else if diffFields c u = [] then Classification.differentUnreported
       else Classification.different c (diffFields c u))
    ∧ classificationOverwrite (classify e (some c) [u]) =
        (!(decide (c = u)) && !(decide (diffFields c u = []))) := by
  have hm := realMessages_eq_diffFields e c u
  by_cases hcu : c = u
  · subst hcu
    constructor
    · simp [classify]
    · simp [classify, classificationOverwrite]
  · by_cases hd : diffFields c u = []
    · constructor
      · simp [classify, hcu, hm, hd]
      · simp [classify, classificationOverwrite, hcu, hm, hd]
    · constructor
      · simp [classify, hcu, hm, hd]
      · simp [classify, classificationOverwrite, hcu, hm, hd]

/-- Counterexample to claim C3 as stated: a candidate and upstream entry
that differ only in the URL field are not classified as diverged — the
step reports nothing (`differentUnreported`) and performs no overwrite,
although one of the seven compared fields differs. -/
theorem c3_counterexample :
    deriveCandidate c3e = some c3c
    ∧ c3c.url ≠ c3u.url
    ∧ c3c ≠ c3u
    ∧ c3c.status = c3u.status ∧ c3c.library = c3u.library
    ∧ c3c.authors = c3u.authors ∧ c3c.identifiers = c3u.identifiers
    ∧ c3c.date = c3u.date ∧ c3c.comment = c3u.comment
    ∧ classify c3e (some c3c) [c3u] = Classification.differentUnreported
    ∧ classificationOverwrite (classify c3e (some c3c) [c3u]) = false := by
  decide

theorem selectAndFields_stdlib_error (form : List FormalisationEntry)
    (inner : ProjInner) (f : FormalisationEntry) (hmem : f ∈ form)
    (hlib : f.library = Library.StandardLibrary) :
    selectAndFields form inner = Except.error PyErr.attributeError := by
  cases form with
  | nil => cases hmem
  | cons f0 fs =>
    have hfe : f ∈ (f0 :: fs).filter fun g => decide (g.library = Library.StandardLibrary) :=
      List.mem_filter.mpr ⟨hmem, by simp [hlib]⟩
    cases hst : (f0 :: fs).filter fun g => decide (g.library = Library.StandardLibrary) with
    | nil =>
      rw [hst] at hfe
      cases hfe
    | cons s ss => simp [selectAndFields, hst]

theorem writeEntry_error_of_stdlib (t : TheoremEntry) (w : String) (ws : List String)
    (f : FormalisationEntry) (hw : t.wikipedia_links = w :: ws)
    (hmem : f ∈ t.formalisations ProofAssistant.LeanPA)
    (hlib : f.library = Library.StandardLibrary) :
    writeEntryForDownstream t = Except.error PyErr.attributeError := by
  unfold writeEntryForDownstream
  rw [hw]
  simp only [parseTitleInner]
  rw [selectAndFields_stdlib_error _ _ f hmem hlib]

/-- Claim C2: for any list order of the three entries External/FullProof,
MainLibrary/Statement, StandardLibrary/FullProof, the projector's
tier-selection step reaches `stdlib_formalisations.get(0)`; Python lists
have no `get` method, so instead of selecting the StandardLibrary entry
the projection raises AttributeError. -/
theorem c2_theorem (t : TheoremEntry) (x m s : FormalisationEntry)
    (w : String) (ws : List String)
    (hw : t.wikipedia_links = w :: ws)
    (hperm : (t.formalisations ProofAssistant.LeanPA).Perm [x, m, s])
    (_hx1 : x.library = Library.External) (_hx2 : x.status = FormalizationStatus.FullProof)
    (_hm1 : m.library = Library.MainLibrary) (_hm2 : m.status = FormalizationStatus.Statement)
    (hs1 : s.library = Library.StandardLibrary) (_hs2 : s.status = FormalizationStatus.FullProof) :
    writeEntryForDownstream t = Except.error PyErr.attributeError := by
  have hmem : s ∈ t.formalisations ProofAssistant.LeanPA := hperm.mem_iff.mpr (by simp)
  exact writeEntry_error_of_stdlib t w ws s hw hmem hs1

/-- Witness for claim C2's theorem at the concrete record `c2rec`. -/
theorem c2_witness :
    c2s.library = Library.StandardLibrary
    ∧ writeEntryForDownstream c2rec = Except.error PyErr.attributeError :=
  ⟨rfl, c2_theorem c2rec c2x c2m c2s "[[Order theorem]]" [] rfl (List.Perm.refl _)
    rfl rfl rfl rfl rfl rfl⟩

/-- Claim C1 (amended): projecting a record whose Lean list is a single
standard-library FullProof entry with one identifier does not produce a
downstream entry at all — the tier-selection step raises AttributeError
(`list.get`), so the projection fails, the claimed round trip cannot be
completed, and in particular no no-op reconciliation (and no overwrite)
takes place. -/
theorem c1_amended (t : TheoremEntry) (f : FormalisationEntry) (i w : String)
    (ws : List String)
    (hw : t.wikipedia_links = w :: ws)
    (hone : t.formalisations ProofAssistant.LeanPA = [f])
    (hlib : f.library = Library.StandardLibrary)
    (_hst : f.status = FormalizationStatus.FullProof)
    (_hid : f.identifiers = some [i]) :
    writeEntryForDownstream t = Except.error PyErr.attributeError
    ∧ ¬ c1RoundTripNoop t := by
  have hmem : f ∈ t.formalisations ProofAssistant.LeanPA := by
    rw [hone]
    exact List.mem_singleton.mpr rfl
  have herr := writeEntry_error_of_stdlib t w ws f hw hmem hlib
  refine ⟨herr, ?_⟩
  rintro ⟨key, p, e, hok, -⟩
  rw [herr] at hok
  cases hok

/-- Witness for claim C1's amended theorem at the concrete record `c1rec`. -/
theorem c1_witness :
    writeEntryForDownstream c1rec = Except.error PyErr.attributeError
    ∧ ¬ c1RoundTripNoop c1rec :=
  c1_amended c1rec c1s "thm_one" "[[Single theorem]]" [] rfl rfl rfl rfl rfl

/-- Counterexample to claim C1 as stated: for the concrete record `c1rec`
(one StandardLibrary/FullProof Lean entry with the single identifier
`thm_one`) the projection raises AttributeError instead of producing a
downstream entry, so the claimed project-then-reconcile no-op round trip
is false at this record. -/
theorem c1_counterexample : ¬ c1RoundTripNoop c1rec := by
  rintro ⟨key, p, e, hok, -⟩
  have herr : writeEntryForDownstream c1rec = Except.error PyErr.attributeError := rfl
  rw [herr] at hok
  cases hok

theorem processKey_invalid (k : String) (e : DownEntry) (store : SyncStore)
    (f : UpFile) (hk : k ≠ "Q513028") (hl : lookupStore store k = some f)
    (hp : parseTheoremEntry f.lines f.raw = Except.ok none) :
    processKey k e store = Except.ok (KeyResult.invalidUpstream, store) := by
  simp [processKey, hk, hl, hp]

/-- Claim C5 (amended): a per-theorem record that fails Record Parser
validation (the parser returns a rejection) aborts only that key — the
step reports `invalidUpstream` and the run continues over the remaining
keys with the store untouched; a record file missing at its expected
location, by contrast, raises an uncaught FileNotFoundError that aborts
the entire run (see this claim's counterexample). -/
theorem c5_amended (k : String) (e : DownEntry) (rest : List (String × DownEntry))
    (store : SyncStore) (f : UpFile)
    (hk : k ≠ "Q513028") (hl : lookupStore store k = some f)
    (hp : parseTheoremEntry f.lines f.raw = Except.ok none) :
    updateRun ((k, e) :: rest) store =
      Except.map (fun p => ((k, KeyResult.invalidUpstream) :: p.1, p.2))
        (updateRun rest store) := by
  have hpk := processKey_invalid k e store f hk hl hp
  cases h : updateRun rest store with
  | error err => simp [updateRun, hpk, h, Except.map]
  | ok p => simp [updateRun, hpk, h, Except.map]

/-- Witness for claim C5's amended theorem: key `Q1` holds a record with
the invalid wikidata identifier `X1`; its step yields `invalidUpstream`
and the (empty) remainder of the run proceeds on the unchanged store. -/
theorem c5_witness :
    ("Q1" : String) ≠ "Q513028"
    ∧ lookupStore c5store "Q1" = some c5bad
    ∧ parseTheoremEntry c5bad.lines c5bad.raw = Except.ok none
    ∧ updateRun [("Q1", {})] c5store =
        Except.map (fun p => (("Q1", KeyResult.invalidUpstream) :: p.1, p.2))
          (updateRun [] c5store) :=
  ⟨by decide, rfl, rfl, c5_amended "Q1" {} [] c5store c5bad (by decide) rfl rfl⟩

/-- Counterexample to claim C5 as stated: with the record file for key
`Q1` missing (the store only holds `Q2`), the run is aborted by an
uncaught FileNotFoundError — the second, perfectly processable key `Q2`
is never reached, contradicting "the reconciliation run itself continues
with the remaining keys and is never aborted by such a per-key failure". -/
theorem c5_counterexample :
    updateRun [("Q1", {}), ("Q2", {})] [("Q2", c5good)] =
      Except.error PyErr.fileNotFoundError := rfl

/-- Claim C6: when the downstream entry yields no candidate (none of the
`statement`, `decl`/`decls`, `url` trigger keys) and the upstream
record's Lean list is nonempty, the step classifies as upstream-ahead
(`upstreamOnly`, report only) and returns the store unchanged — the
record file is never overwritten.  (The hardcoded key `Q513028` is
excluded: it is skipped before the record is ever consulted, see claim
C10.) -/
theorem c6_theorem (k : String) (e : DownEntry) (store : SyncStore)
    (f : UpFile) (rec : TheoremEntry)
    (hk : k ≠ "Q513028") (hl : lookupStore store k = some f)
    (hp : parseTheoremEntry f.lines f.raw = Except.ok (some rec))
    (hc : deriveCandidate e = none)
    (hup : rec.formalisations ProofAssistant.LeanPA ≠ []) :
    processKey k e store =
      Except.ok (KeyResult.classified Classification.upstreamOnly, store) := by
  cases hu : rec.formalisations ProofAssistant.LeanPA with
  | nil => exact absurd hu hup
  | cons u us => simp [processKey, hk, hl, hp, classify, hc, hu]

/-- Witness for claim C6 at the concrete two-entry record `c6file`. -/
theorem c6_witness :
    deriveCandidate c6e = none
    ∧ c6rec.formalisations ProofAssistant.LeanPA ≠ []
    ∧ processKey "Q42" c6e c6store =
        Except.ok (KeyResult.classified Classification.upstreamOnly, c6store) :=
  ⟨rfl, by decide,
   c6_theorem "Q42" c6e c6store c6file c6rec (by decide) rfl rfl rfl (by decide)⟩

/-- Claim C9: malformed framing — a first or last line that does not
rstrip to `---`, or a second line that starts with neither `# ` nor
`## ` — makes the record parser raise (AssertionError) rather than return
a per-record rejection; an invalid wikidata identifier, by contrast, is
returned as a rejection (`none`); and a framing violation in a stored
file propagates out of the reconciliation run, aborting it. -/
theorem c9_theorem :
    (∀ (c0 c1 : String) (rest : List String) (body : TheoremEntryRaw),
      (pyRstrip c0 ≠ "---" ∨ pyRstrip (pyLastLine (c0 :: c1 :: rest)) ≠ "---" ∨
        (pyStartsWith c1 "# " = false ∧ pyStartsWith c1 "## " = false)) →
      parseTheoremEntry (c0 :: c1 :: rest) body = Except.error PyErr.assertionError)
    ∧ (∀ (c0 c1 : String) (rest : List String) (body : TheoremEntryRaw),
      pyRstrip c0 = "---" → pyRstrip (pyLastLine (c0 :: c1 :: rest)) = "---" →
      (pyStartsWith c1 "# " = true ∨ pyStartsWith c1 "## " = true) →
      is_valid_wikidata body.wikidata = false →
      parseTheoremEntry (c0 :: c1 :: rest) body = Except.ok none)
    ∧ (∀ (k : String) (e : DownEntry) (rest2 : List (String × DownEntry))
         (store : SyncStore) (f : UpFile) (err : PyErr),
      k ≠ "Q513028" → lookupStore store k = some f →
      parseTheoremEntry f.lines f.raw = Except.error err →
      updateRun ((k, e) :: rest2) store = Except.error err) := by
  refine ⟨?_, ?_, ?_⟩
  · intro c0 c1 rest body h
    by_cases h0 : pyRstrip c0 = "---"
    · by_cases hlast : pyRstrip (pyLastLine (c0 :: c1 :: rest)) = "---"
      · rcases h with h | h | ⟨ha, hb⟩
        · exact absurd h0 h
        · exact absurd hlast h
        · simp [parseTheoremEntry, h0, hlast, ha, hb]
      · simp [parseTheoremEntry, h0, hlast]
    · simp [parseTheoremEntry, h0]
  · intro c0 c1 rest body h0 hlast hs hw
    have hhdr : (pyStartsWith c1 "# " || pyStartsWith c1 "## ") = true := by
      rcases hs with hs | hs <;> simp [hs]
    simp [parseTheoremEntry, h0, hlast, hhdr, parseBody, hw]
  · intro k e rest2 store f err hk hl hp
    have hpk : processKey k e store = Except.error err := by
      simp [processKey, hk, hl, hp]
    simp [updateRun, hpk]

/-- Witness for claim C9: a bad first line raises AssertionError, an
invalid wikidata identifier yields a rejection instead, and the framing
violation aborts a one-key reconciliation run. -/
theorem c9_witness :
    parseTheoremEntry ["--x", "# W theorem", "---"] c9body =
      Except.error PyErr.assertionError
    ∧ parseTheoremEntry ["---", "# W theorem", "---"] c9badBody = Except.ok none
    ∧ updateRun [("Q9", {})] [("Q9", c9file)] = Except.error PyErr.assertionError :=
  ⟨c9_theorem.1 "--x" "# W theorem" ["---"] c9body (Or.inl (by decide)),
   c9_theorem.2.1 "---" "# W theorem" ["---"] c9badBody (by decide) (by decide)
     (Or.inl (by decide)) (by decide),
   c9_theorem.2.2 "Q9" {} [] [("Q9", c9file)] c9file PyErr.assertionError
     (by decide) rfl rfl⟩

/-- Claim C10: for any downstream entry and any store, the key `Q513028`
is skipped with a warning before the record file is consulted — the
result does not depend on the store's contents and the store is returned
unchanged, so the file is never read, compared, or written. -/
theorem c10_theorem (e : DownEntry) (store : SyncStore) :
    processKey "Q513028" e store = Except.ok (KeyResult.skippedQ513028, store) := rfl

theorem classify_newDownstream_cand {e : DownEntry} {cand : Option FormalisationEntry}
    {up : List FormalisationEntry} {c : FormalisationEntry}
    (h : classify e cand up = Classification.newDownstream c) : cand = some c := by
  cases cand with
  | none =>
    cases up with
    | nil => simp [classify] at h
    | cons u us => simp [classify] at h
  | some c2 =>
    cases up with
    | nil =>
      simp [classify] at h
      rw [h]
    | cons u us =>
      cases us with
      | nil =>
        by_cases hcu : c2 = u
        · simp [classify, hcu] at h
        · by_cases hms : realMessages e c2 u = []
          · simp [classify, hcu, hms] at h
          · simp [classify, hcu, hms] at h
      | cons u2 us2 => simp [classify] at h

theorem classify_different_cand {e : DownEntry} {cand : Option FormalisationEntry}
    {up : List FormalisationEntry} {c : FormalisationEntry} {ms : List FieldDiff}
    (h : classify e cand up = Classification.different c ms) : cand = some c := by
  cases cand with
  | none =>
    cases up with
    | nil => simp [classify] at h
    | cons u us => simp [classify] at h
  | some c2 =>
    cases up with
    | nil => simp [classify] at h
    | cons u us =>
      cases us with
      | nil =>
        by_cases hcu : c2 = u
        · simp [classify, hcu] at h
        · by_cases hms : realMessages e c2 u = []
          · simp [classify, hcu, hms] at h
          · simp [classify, hcu, hms] at h
            rw [h.1]
      | cons u2 us2 => simp [classify] at h

theorem lookup_storeSet_ne (store : SyncStore) (k k2 : String) (f : UpFile)
    (h : k2 ≠ k) : lookupStore (storeSet store k f) k2 = lookupStore store k2 := by
  induction store with
  | nil => rfl
  | cons p rest ih =>
    obtain ⟨k3, g⟩ := p
    by_cases hk3 : k3 = k
    · subst hk3
      have hhead : storeSet ((k3, g) :: rest) k3 f = (k3, f) :: storeSet rest k3 f := by
        simp [storeSet]
      rw [hhead]
      have hne : ¬ (k3 = k2) := fun heq => h heq.symm
      show (if k3 = k2 then some f else lookupStore (storeSet rest k3 f) k2) =
        (if k3 = k2 then some g else lookupStore rest k2)
      rw [if_neg hne, if_neg hne]
      exact ih
    · have hhead : storeSet ((k3, g) :: rest) k f = (k3, g) :: storeSet rest k f := by
        simp [storeSet, hk3]
      rw [hhead]
      show (if k3 = k2 then some g else lookupStore (storeSet rest k f) k2) =
        (if k3 = k2 then some g else lookupStore rest k2)
      by_cases hk32 : k3 = k2
      · rw [if_pos hk32, if_pos hk32]
      · rw [if_neg hk32, if_neg hk32]
        exact ih

/-- Claim C8: whenever one key's processing succeeds, either the store is
returned untouched, or exactly the processed key's file is rewritten
(`storeSet` at the same key, so the record is persisted at the location
it was read from, and every other key's file is unchanged), and the
rewritten file's structured body is the old body with only the `lean`
field replaced by the new singleton entry — every other top-level field
(wikidata, id_suffix, msc_classification, wikipedia_links, and the other
proof-assistant lists) is written back unchanged, as the record-update
form states. -/
theorem c8_theorem (k : String) (e : DownEntry) (store : SyncStore)
    (res : KeyResult) (store' : SyncStore)
    (h : processKey k e store = Except.ok (res, store')) :
    (∀ k2, k2 ≠ k → lookupStore store' k2 = lookupStore store k2)
    ∧ (store' = store
       ∨ ∃ f c title, lookupStore store k = some f ∧ deriveCandidate e = some c ∧
           store' = storeSet store k (overwrittenFile f c k title) ∧
           (overwrittenFile f c k title).raw =
             { f.raw with leanList := some [writeInner c k] }) := by
  by_cases hk : k = "Q513028"
  · rw [hk] at h
    have hv : store' = store := by
      have h2 := h
      rw [show processKey "Q513028" e store =
            Except.ok (KeyResult.skippedQ513028, store) from rfl] at h2
      cases h2
      rfl
    subst hv
    exact ⟨fun k2 _ => rfl, Or.inl rfl⟩
  · unfold processKey at h
    rw [if_neg hk] at h
    cases hl : lookupStore store k with
    | none =>
      rw [hl] at h
      cases h
    | some f =>
      rw [hl] at h
      simp only at h
      cases hp : parseTheoremEntry f.lines f.raw with
      | error err =>
        rw [hp] at h
        cases h
      | ok o =>
        rw [hp] at h
        cases o with
        | none =>
          simp only at h
          cases h
          exact ⟨fun k2 _ => rfl, Or.inl rfl⟩
        | some rec =>
          simp only at h
          cases hcls : classify e (deriveCandidate e)
              (rec.formalisations ProofAssistant.LeanPA) with
          | newDownstream c =>
            rw [hcls] at h
            unfold doOverwrite at h
            cases ht : parseTitleInner f.raw.wikipedia_links with
            | error err =>
              rw [ht] at h
              cases h
            | ok title =>
              rw [ht] at h
              cases h
              refine ⟨fun k2 hne => lookup_storeSet_ne store k k2 _ hne, Or.inr ?_⟩
              exact ⟨f, c, title, rfl, classify_newDownstream_cand hcls, rfl, rfl⟩
          | different c ms =>
            rw [hcls] at h
            unfold doOverwrite at h
            cases ht : parseTitleInner f.raw.wikipedia_links with
            | error err =>
              rw [ht] at h
              cases h
            | ok title =>
              rw [ht] at h
              cases h
              refine ⟨fun k2 hne => lookup_storeSet_ne store k k2 _ hne, Or.inr ?_⟩
              exact ⟨f, c, title, rfl, classify_different_cand hcls, rfl, rfl⟩
          | upstreamOnly =>
            rw [hcls] at h
            cases h
            exact ⟨fun k2 _ => rfl, Or.inl rfl⟩
          | multipleUpstream n =>
            rw [hcls] at h
            cases h
            exact ⟨fun k2 _ => rfl, Or.inl rfl⟩
          | differentUnreported =>
            rw [hcls] at h
            cases h
            exact ⟨fun k2 _ => rfl, Or.inl rfl⟩
          | same =>
            rw [hcls] at h
            cases h
            exact ⟨fun k2 _ => rfl, Or.inl rfl⟩
          | nothingToDo =>
            rw [hcls] at h
            cases h
            exact ⟨fun k2 _ => rfl, Or.inl rfl⟩

/-- Witness for claim C8 at a concrete overwrite: key `Q7`'s record has
no Lean entry, the downstream entry carries `decl`, so the step
overwrites — and the theorem's frame conclusion holds there. -/
theorem c8_witness :
    processKey "Q7" c8e c8store =
      Except.ok (KeyResult.classified (Classification.newDownstream c8c), c8store2)
    ∧ ((∀ k2, k2 ≠ "Q7" → lookupStore c8store2 k2 = lookupStore c8store k2)
       ∧ (c8store2 = c8store
          ∨ ∃ f c title, lookupStore c8store "Q7" = some f ∧
              deriveCandidate c8e = some c ∧
              c8store2 = storeSet c8store "Q7" (overwrittenFile f c "Q7" title) ∧
              (overwrittenFile f c "Q7" title).raw =
                { f.raw with leanList := some [writeInner c "Q7"] })) :=
  ⟨rfl, c8_theorem "Q7" c8e c8store
    (KeyResult.classified (Classification.newDownstream c8c)) c8store2 rfl⟩
